import Mathlib

/-!
Shallow embedding of the WhatsApp sales-intelligence pipeline:
the AI analyzer (`aiAnalyzer.js`), the chat/conversation service
(`chatService.js`), the bulk persistence layer (`databaseService.js`) and
the orchestration in `index.js`.  JavaScript strings that are inspected
character by character (transcripts, truncated fields) are modelled as
lists of characters; external effects (the AI service, the database) are
modelled as explicit outcome parameters.
-/

/-- JavaScript strings that get trimmed, truncated or concatenated are
modelled as lists of characters. -/
abbrev JString := List Char

/-- Whitespace characters recognised by the JavaScript `trim` used on
transcripts (space, tab, newline, carriage return, vertical tab, form feed). -/
def isJsWhitespace (c : Char) : Bool :=
  c == ' ' || c == '\t' || c == '\n' || c == '\r' ||
  c == Char.ofNat 11 || c == Char.ofNat 12

/-- Model of the JavaScript `String.prototype.trim`: remove leading and
trailing whitespace. -/
def jsTrim (s : JString) : JString :=
  ((s.dropWhile isJsWhitespace).reverse.dropWhile isJsWhitespace).reverse

/-- JavaScript `x || d` on an optional numeric value: `null`/`undefined`
and `0` are falsy and fall through to the default. -/
def jsOrQ (v : Option ℚ) (d : ℚ) : ℚ :=
  match v with
  | some q => if q = 0 then d else q
  | none => d

/-- JavaScript `x || d` on an optional integer: absent and `0` are falsy. -/
def jsOrInt (v : Option Int) (d : Int) : Int :=
  match v with
  | some x => if x = 0 then d else x
  | none => d

/-- JavaScript `a || b` on optional strings: absent and the empty string
are falsy. -/
def jsOrStr (a b : Option JString) : Option JString :=
  match a with
  | some s => if s.isEmpty then b else some s
  | none => b

/-- The content fields of an analysis, as produced by `getEmptyAnalysis`
and expected from the AI service response schema (aiAnalyzer.js).
The free-form `product_specifications` JSON object is abstracted to an
optional string. -/
structure AnalysisFields where
  product_category : String
  specific_products : List String
  product_models : List String
  quantity_mentioned : Option Nat
  primary_sales_agent : Option String
  additional_agents : List String
  agent_handoff_detected : Bool
  lead_stage : String
  next_action_required : String
  sales_status : String
  customer_objections : List String
  urgency_level : String
  customer_name : Option String
  customer_location : Option String
  budget_range : Option String
  purchase_timeline : Option String
  decision_maker_status : Option String
  product_specifications : Option String
  accessories_discussed : List String
  warranty_service_needs : Option String
  color_preferences : List String
  lead_source : Option String
  competitive_products : List String
  upsell_opportunities : List String
  customer_sentiment : String
  pain_points_identified : List String
  pricing_discussed : Bool
  demo_scheduled : Bool
  follow_up_required : Bool
deriving DecidableEq

/-- The field values of the canonical empty analysis
(`AIAnalyzer.getEmptyAnalysis`, aiAnalyzer.js lines 126-160). -/
def emptyAnalysisFields : AnalysisFields :=
  { product_category := "No Product Mentioned"
    specific_products := []
    product_models := []
    quantity_mentioned := none
    primary_sales_agent := none
    additional_agents := []
    agent_handoff_detected := false
    lead_stage := "Inquiry"
    next_action_required := "Initial contact or follow-up needed"
    sales_status := "No meaningful conversation detected"
    customer_objections := []
    urgency_level := "Low"
    customer_name := none
    customer_location := none
    budget_range := none
    purchase_timeline := none
    decision_maker_status := none
    product_specifications := none
    accessories_discussed := []
    warranty_service_needs := none
    color_preferences := []
    lead_source := none
    competitive_products := []
    upsell_opportunities := []
    customer_sentiment := "Neutral"
    pain_points_identified := []
    pricing_discussed := false
    demo_scheduled := false
    follow_up_required := true }

/-- An analysis result as returned by `AIAnalyzer.analyzeSalesConversation`:
the content fields plus the identifier, confidence and bookkeeping fields.
Fields that are left undefined on some return paths (model, latency, error)
are optional. -/
structure AnalysisResult where
  remoteJid : String
  fields : AnalysisFields
  analysisConfidence : ℚ
  aiModelUsed : Option String
  processingTimeMs : Option Nat
  error : Option String
deriving DecidableEq

/-- The canonical empty analysis (`AIAnalyzer.getEmptyAnalysis`): default
fields and confidence 0.3; no model, latency or error annotation. -/
def getEmptyAnalysis (remoteJid : String) : AnalysisResult :=
  { remoteJid := remoteJid
    fields := emptyAnalysisFields
    analysisConfidence := (0.3 : ℚ)
    aiModelUsed := none
    processingTimeMs := none
    error := none }

/-- The parsed JSON body of a successful AI-service response: content
fields plus the optional `analysis_confidence` score. -/
structure ServiceAnalysis where
  fields : AnalysisFields
  analysis_confidence : Option ℚ
deriving DecidableEq

/-- Outcome of one call to the external AI service: either a parsed JSON
response, or a thrown error carrying a message and an optional error code
(for quota errors the code is `insufficient_quota`), with the elapsed time. -/
inductive ServiceOutcome where
  | ok (analysis : ServiceAnalysis) (elapsedMs : Nat) : ServiceOutcome
  | err (message : String) (code : Option String) (elapsedMs : Nat) : ServiceOutcome
deriving DecidableEq

/-- The model identifier used when `OPENAI_MODEL` is unset. -/
def defaultModel : String := "gpt-3.5-turbo"

/-- `AIAnalyzer.analyzeSalesConversation` (aiAnalyzer.js lines 16-65).
Returns the produced result together with a flag recording whether the
external AI service was called.  On empty or whitespace-only transcript the
canonical empty analysis is returned without a service call; on a service
error the catch block returns the empty analysis annotated with confidence
0.1, model `error` and the error message — the function never throws. -/
def analyzeSalesConversation (svc : ServiceOutcome) (conversation : JString)
    (remoteJid : String) : AnalysisResult × Bool :=
  if conversation.isEmpty || (jsTrim conversation).isEmpty then
    (getEmptyAnalysis remoteJid, false)
  else
    match svc with
    | .ok analysis elapsedMs =>
      ({ remoteJid := remoteJid
         fields := analysis.fields
         analysisConfidence := jsOrQ analysis.analysis_confidence (0.8 : ℚ)
         aiModelUsed := some defaultModel
         processingTimeMs := some elapsedMs
         error := none }, true)
    | .err message _ elapsedMs =>
      ({ getEmptyAnalysis remoteJid with
         analysisConfidence := (0.1 : ℚ)
         aiModelUsed := some "error"
         processingTimeMs := some elapsedMs
         error := some message }, true)

/-- A message row as returned by the chat-message query
(`ChatService.getMessagesForChat`).  The SQL `from_me` column is the text
`'true'`/`'false'`; the source compares it with `=== 'true'`, which this
model reflects as a boolean.  `sent_at` is an epoch timestamp in
milliseconds (`null` when absent). -/
structure Msg where
  sender_name : Option String
  messageType : JString
  from_me : Bool
  text_content : Option JString
  sent_at : Option Int
  messageTimestamp : Int
deriving DecidableEq

/-- Rendering of a timestamp inside a transcript line.  The source uses the
locale wall-clock rendering `new Date(x).toLocaleString()`; the embedding
abstracts this to a numeric rendering, which no claim depends on. -/
def renderTime (sentAt : Option Int) : JString := (toString (sentAt.getD 0)).toList

/-- One transcript line of `ChatService.buildConversationString`: messages
whose text is null or whitespace-only contribute nothing. -/
def messageLine (message : Msg) : JString :=
  let time := renderTime message.sent_at
  let name : JString :=
    if message.from_me then "Sales Agent".toList else "Customer".toList
  let text : Option JString :=
    if message.messageType = "conversation".toList then message.text_content
    else some ('[' :: (message.messageType.map Char.toUpper ++ [']']))
  match text with
  | some t =>
    if t.isEmpty || (jsTrim t).isEmpty then []
    else ('[' :: time ++ [']', ' ']) ++ name ++ (':' :: ' ' :: t) ++ ['\n']
  | none => []

/-- `ChatService.buildConversationString` (chatService.js lines 183-206):
renders the last `maxMessages` messages.  The JavaScript `slice(-n)` keeps
the whole list when `n = 0`, which the model mirrors. -/
def buildConversationString (messages : List Msg) (maxMessages : Nat) : JString :=
  if messages.isEmpty then []
  else
    let recentMessages :=
      if maxMessages == 0 then messages
      else messages.drop (messages.length - maxMessages)
    recentMessages.foldl
      (fun fullConversation message => fullConversation ++ messageLine message) []

/-- Conversation metadata carried next to a transcript. -/
structure ConvMetadata where
  totalMessages : Int
  conversationDurationDays : Int
  lastCustomerMessageTime : Option Int
deriving DecidableEq

/-- Ceiling division as performed by `Math.ceil(a / b)` for positive `b`. -/
def jsCeilDiv (a b : Int) : Int := -((-a).fdiv b)

/-- `ChatService.getConversationMetadata` (chatService.js lines 211-234). -/
def getConversationMetadata (messages : List Msg) : ConvMetadata :=
  if messages.isEmpty then ⟨0, 0, none⟩
  else
    let customerMessages := messages.filter (fun m => !m.from_me)
    let firstSent := messages.head?.bind (·.sent_at)
    let lastSent := messages.getLast?.bind (·.sent_at)
    let duration : Int :=
      match firstSent, lastSent with
      | some f, some l => jsCeilDiv (l - f) 86400000
      | _, _ => 0
    ⟨(messages.length : Int), duration, customerMessages.getLast?.bind (·.sent_at)⟩

/-- One conversation record produced by `ChatService.processChatsBatch`.
The catch branch produces a record with only identifier, error and
`hasMessages: false`; the remaining fields are undefined there and are
modelled with their empty defaults. -/
structure ConvResult where
  remoteJid : String
  chatName : Option JString
  conversation : JString
  metadata : Option ConvMetadata
  hasMessages : Bool
  fromCache : Bool
  error : Option String
deriving DecidableEq

/-- A chat row as returned by the unanalyzed-chats query (only the columns
the batch processing reads). -/
structure ChatRow where
  chat_id : String
  chat_name : Option JString
deriving DecidableEq

/-- A cached conversation as assembled by
`ChatService.getCachedConversations`. -/
structure CachedConv where
  conversation : JString
  metadata : ConvMetadata
  chatName : Option JString
  cachedAt : Int
deriving DecidableEq

/-- A row of the `ConversationCache` table as returned by the cache query. -/
structure CacheRow where
  remoteJid : String
  conversation_text : JString
  total_messages : Int
  conversation_duration_days : Int
  last_customer_message_time : Option Int
  chat_name : Option JString
  processed_at : Int
deriving DecidableEq

/-- JavaScript `Map.set`: replace in place when the key is present,
append otherwise. -/
def mapSet (m : List (String × CachedConv)) (k : String) (v : CachedConv) :
    List (String × CachedConv) :=
  if m.any (fun p => p.1 == k) then
    m.map (fun p => if p.1 == k then (k, v) else p)
  else m ++ [(k, v)]

/-- `ChatService.getCachedConversations` (chatService.js lines 8-49): build
a map from identifier to cached conversation; on an empty request or on a
store query failure return the empty map (the catch swallows the error). -/
def getCachedConversations (outcome : Except String (List CacheRow))
    (remoteJids : List String) : List (String × CachedConv) :=
  if remoteJids.isEmpty then []
  else
    match outcome with
    | .error _ => []
    | .ok rows =>
      rows.foldl
        (fun cacheMap row =>
          mapSet cacheMap row.remoteJid
            ⟨row.conversation_text,
             ⟨row.total_messages, row.conversation_duration_days,
              row.last_customer_message_time⟩,
             row.chat_name, row.processed_at⟩) []

/-- JavaScript `Map.get` on the cache map. -/
def cacheGet (m : List (String × CachedConv)) (k : String) : Option CachedConv :=
  (m.find? (fun p => p.1 == k)).map (·.2)

/-- The split of the input chats into cache hits (already turned into
conversation records) and chats still to process, in input order
(chatService.js lines 251-265). -/
def splitCached (cm : List (String × CachedConv)) :
    List ChatRow → List ConvResult × List ChatRow
  | [] => ([], [])
  | chat :: rest =>
    let (cachedResults, chatsToProcess) := splitCached cm rest
    match cacheGet cm chat.chat_id with
    | some cached =>
      ({ remoteJid := chat.chat_id
         chatName := jsOrStr cached.chatName chat.chat_name
         conversation := cached.conversation
         metadata := some cached.metadata
         hasMessages := true
         fromCache := true
         error := none } :: cachedResults, chatsToProcess)
    | none => (cachedResults, chat :: chatsToProcess)

/-- Per-chat processing inside `ChatService.processChatsBatch`
(lines 280-308): fetch messages, render the transcript and metadata; a
fetch failure is caught and turned into an error record for that chat. -/
def processChatItem (fetch : String → Except String (List Msg))
    (chat : ChatRow) : ConvResult :=
  match fetch chat.chat_id with
  | .ok messages =>
    { remoteJid := chat.chat_id
      chatName := chat.chat_name
      conversation := buildConversationString messages 200
      metadata := some (getConversationMetadata messages)
      hasMessages := !messages.isEmpty
      fromCache := false
      error := none }
  | .error m =>
    { remoteJid := chat.chat_id
      chatName := none
      conversation := []
      metadata := none
      hasMessages := false
      fromCache := false
      error := some m }

/-- Fuel-bounded slicing loop: `chunksAux fuel n xs` cuts `xs` into
consecutive chunks of size `n`; the fuel (instantiated with the length of
the list) bounds the number of loop iterations. -/
def chunksAux {α : Type} : Nat → Nat → List α → List (List α)
  | 0, _, _ => []
  | _ + 1, _, [] => []
  | fuel + 1, n, x :: rest =>
    (x :: rest.take (n - 1)) :: chunksAux fuel n (rest.drop (n - 1))

/-- The `for (let i = 0; i < xs.length; i += n) xs.slice(i, i + n)` chunking
used by both batch loops.  The source loops terminate only for `n > 0`. -/
def chunks {α : Type} (n : Nat) (xs : List α) : List (List α) :=
  chunksAux xs.length n xs

/-- Output of `ChatService.processChatsBatch`: the conversation records
(one per input chat) and the freshly built conversations that are handed to
the cache writer. -/
structure ProcessBatchOutput where
  results : List ConvResult
  newConversations : List ConvResult
deriving DecidableEq

/-- `ChatService.processChatsBatch` (chatService.js lines 239-326): consult
the cache, turn hits into records, process the misses in chunks of
`batchSize`, and collect the freshly built conversations with messages for
caching.  Within a chunk the source may interleave completions; the model
uses input order, one admissible linearization. -/
def processChatsBatch (fetch : String → Except String (List Msg))
    (cacheOutcome : Except String (List CacheRow)) (chats : List ChatRow)
    (batchSize : Nat) : ProcessBatchOutput :=
  let cachedConversations := getCachedConversations cacheOutcome (chats.map (·.chat_id))
  let (cachedResults, chatsToProcess) := splitCached cachedConversations chats
  let processed := (chunks batchSize chatsToProcess).foldl
    (fun acc batch => acc ++ batch.map (processChatItem fetch)) []
  { results := cachedResults ++ processed
    newConversations := processed.filter (·.hasMessages) }

/-- The data columns written by the cache upsert
(`ChatService.saveConversationsToCache`). -/
structure CacheEntry where
  conversation : JString
  totalMessages : Int
  conversationDurationDays : Int
  lastCustomerMessageTime : Option Int
  chatName : Option JString
deriving DecidableEq

/-- The `ConversationCache` table modelled as a map from conversation
identifier to stored entry.  The wall-clock `processed_at`/`UPDATED_AT`
columns refreshed by the upsert are not data and are omitted. -/
abbrev CacheMap := String → Option CacheEntry

/-- The `ON CONFLICT ("remoteJid") DO UPDATE` upsert: the row keyed by the
identifier is fully replaced. -/
def cacheUpsert (m : CacheMap) (k : String) (e : CacheEntry) : CacheMap :=
  fun k2 => if k2 = k then some e else m k2

/-- The values bound by the cache insert statement for one conversation
(chatService.js lines 87-94). -/
def entryOfConv (conv : ConvResult) : CacheEntry :=
  { conversation := conv.conversation
    totalMessages := jsOrInt (conv.metadata.map (·.totalMessages)) 0
    conversationDurationDays := jsOrInt (conv.metadata.map (·.conversationDurationDays)) 0
    lastCustomerMessageTime := conv.metadata.bind (·.lastCustomerMessageTime)
    chatName := conv.chatName }

/-- The guard of the cache write loop (chatService.js line 86):
`conv.conversation && conv.conversation.trim() !== ''`. -/
def goodConv (conv : ConvResult) : Bool :=
  !conv.conversation.isEmpty && !(jsTrim conv.conversation).isEmpty

/-- `ChatService.saveConversationsToCache` (chatService.js lines 54-108):
upsert every conversation with a non-empty, non-whitespace transcript;
entries failing the guard are skipped.  `txOk` records whether the
surrounding transaction commits: on an error the transaction is rolled back
and the table is unchanged. -/
def saveConversationsToCache (txOk : Bool) (m : CacheMap)
    (conversations : List ConvResult) : CacheMap :=
  if conversations.isEmpty then m
  else if txOk then
    conversations.foldl
      (fun acc conv =>
        if goodConv conv then cacheUpsert acc conv.remoteJid (entryOfConv conv)
        else acc) m
  else m

/-- The cache table with no rows. -/
def cacheEmpty : CacheMap := fun _ => none

/-- The last conversation in the list that passes the cache-write guard and
has the given key; it determines the stored entry for that key. -/
def lastGoodConv : List ConvResult → String → Option ConvResult
  | [], _ => none
  | conv :: rest, k =>
    match lastGoodConv rest k with
    | some d => some d
    | none => if goodConv conv && conv.remoteJid == k then some conv else none

/-- One result row of `AIAnalyzer.analyzeConversationsBatch`: the analysis
plus the metadata and bookkeeping added by the batch loop.
`analysisSuccess` is absent on the skip path (error or no messages), `true`
on the analyzed path; because `analyzeSalesConversation` catches every
service error internally and never throws, the catch branch that would set
`analysisSuccess: false` and `errorCode` is unreachable. -/
structure BatchResult where
  res : AnalysisResult
  metadata : Option ConvMetadata
  analysisSuccess : Option Bool
  errorCode : Option String
deriving DecidableEq

/-- Per-item processing inside `AIAnalyzer.analyzeConversationsBatch`
(aiAnalyzer.js lines 176-212).  The catch branch (lines 191-211) is
unreachable: `analyzeSalesConversation` returns its error fallback instead
of rejecting, so every analyzed item reports `analysisSuccess: true` and
`errorCode` is never set. -/
def processConvItem (svc : String → ServiceOutcome) (data : ConvResult) :
    BatchResult :=
  if data.error.isSome || !data.hasMessages then
    { res := getEmptyAnalysis data.remoteJid
      metadata := data.metadata
      analysisSuccess := none
      errorCode := none }
  else
    { res := (analyzeSalesConversation (svc data.remoteJid) data.conversation data.remoteJid).1
      metadata := data.metadata
      analysisSuccess := some true
      errorCode := none }

/-- State of the batch loop of `AIAnalyzer.analyzeConversationsBatch`:
the collected results, the checkpoint accumulator, the batch counter and
the list of successfully flushed checkpoints (in flush order). -/
structure BatchState where
  results : List BatchResult
  accumulatedForSave : List BatchResult
  batchNumber : Nat
  persisted : List (List BatchResult)
deriving DecidableEq

/-- Flush the accumulator every `SAVE_INTERVAL` batches (aiAnalyzer.js
line 167). -/
def SAVE_INTERVAL : Nat := 50

/-- The truthiness test `result.analysisSuccess` used by the save filters
and the summary counters. -/
def isSuccessResult (r : BatchResult) : Bool := r.analysisSuccess == some true

/-- One iteration of the chunk loop of `analyzeConversationsBatch`
(aiAnalyzer.js lines 171-252).  `flushOk b` tells whether the incremental
save attempted after batch `b` succeeds; a failed save is caught and only
logged.  The accumulator is reset (line 245) after every save attempt,
also when the save failed. -/
def stepBatch (svc : String → ServiceOutcome) (hasCallback : Bool)
    (flushOk : Nat → Bool) (s : BatchState) (batch : List ConvResult) :
    BatchState :=
  let batchResults := batch.map (processConvItem svc)
  let batchNumber := s.batchNumber + 1
  let doSave := hasCallback && batchNumber % SAVE_INTERVAL == 0
  let successfulInBatch := (s.accumulatedForSave ++ batchResults).filter isSuccessResult
  { results := s.results ++ batchResults
    accumulatedForSave := if doSave then [] else s.accumulatedForSave ++ batchResults
    batchNumber := batchNumber
    persisted :=
      if doSave && !successfulInBatch.isEmpty && flushOk batchNumber then
        s.persisted ++ [successfulInBatch]
      else s.persisted }

/-- `AIAnalyzer.analyzeConversationsBatch` (aiAnalyzer.js lines 165-285):
process the conversations in chunks of `batchSize`, flushing the
accumulator through the incremental save callback every `SAVE_INTERVAL`
batches and once more at the end for any remainder (`finalFlushOk` tells
whether that final save succeeds). -/
def analyzeConversationsBatch (svc : String → ServiceOutcome)
    (flushOk : Nat → Bool) (finalFlushOk : Bool)
    (conversationData : List ConvResult) (batchSize : Nat)
    (hasCallback : Bool) : BatchState :=
  let s := (chunks batchSize conversationData).foldl
    (stepBatch svc hasCallback flushOk)
    { results := [], accumulatedForSave := [], batchNumber := 0, persisted := [] }
  let successfulRemaining := s.accumulatedForSave.filter isSuccessResult
  if hasCallback && !s.accumulatedForSave.isEmpty && !successfulRemaining.isEmpty
      && finalFlushOk then
    { s with persisted := s.persisted ++ [successfulRemaining] }
  else s

/-- The quota-failure counter of the run report (index.js line 122 and
aiAnalyzer.js line 272): results whose `errorCode` is
`insufficient_quota`. -/
def quotaFailureCount (results : List BatchResult) : Nat :=
  (results.filter (fun r => r.errorCode == some "insufficient_quota")).length

/-- Outcome of one row insert against the result store: success, or a
constraint violation with message and error code. -/
inductive RowOutcome where
  | ok : RowOutcome
  | fail (message : String) (code : Option String) : RowOutcome
deriving DecidableEq

/-- Return value of `DatabaseService.bulkInsertAnalysisResults`, extended
with the observable transaction effect: whether `COMMIT` was reached and
which rows were actually persisted. -/
structure BulkResult where
  success : Nat
  failed : Nat
  errors : List (Option String × String)
  committed : Bool
  persisted : List String
deriving DecidableEq

/-- The row loop of `bulkInsertAnalysisResults` (databaseService.js lines
367-411): count successes, record per-row errors and keep going; once the
error count exceeds 50 the loop throws, the catch rolls the transaction
back and reports zero successes with a single generic error (the per-row
errors collected before the abort are discarded by the fresh array in the
catch).  The store is modelled as reporting each row outcome
independently. -/
def bulkLoop (total : Nat) :
    List (String × RowOutcome) → Nat → Nat → List (Option String × String) →
    List String → BulkResult
  | [], successCount, errorCount, errors, done =>
    { success := successCount, failed := errorCount, errors := errors
      committed := true, persisted := done }
  | (jid, .ok) :: rest, successCount, errorCount, errors, done =>
    bulkLoop total rest (successCount + 1) errorCount errors (done ++ [jid])
  | (jid, .fail msg _) :: rest, successCount, errorCount, errors, done =>
    if errorCount + 1 > 50 then
      { success := 0, failed := total
        errors := [(none, "Too many insertion errors")]
        committed := false, persisted := [] }
    else
      bulkLoop total rest successCount (errorCount + 1)
        (errors ++ [(some jid, msg)]) done

/-- `DatabaseService.bulkInsertAnalysisResults` (databaseService.js lines
296-420): early return on an empty batch, otherwise run the row loop inside
one transaction. -/
def bulkInsertAnalysisResults (rows : List (String × RowOutcome)) : BulkResult :=
  if rows.isEmpty then
    { success := 0, failed := 0, errors := [], committed := true, persisted := [] }
  else bulkLoop rows.length rows 0 0 [] []

/-- Whether a row's insert fails. -/
def isFailRow (row : String × RowOutcome) : Bool :=
  match row.2 with
  | .ok => false
  | .fail _ _ => true

/-- Number of failing rows in a batch. -/
def failCount (rows : List (String × RowOutcome)) : Nat :=
  (rows.filter isFailRow).length

/-- Number of succeeding rows in a batch. -/
def okCount (rows : List (String × RowOutcome)) : Nat :=
  (rows.filter (fun r => !isFailRow r)).length

/-- The per-row errors recorded for the failing rows, in order. -/
def failErrs (rows : List (String × RowOutcome)) : List (Option String × String) :=
  rows.filterMap (fun r =>
    match r.2 with
    | .fail m _ => some (some r.1, m)
    | .ok => none)

/-- The identifiers of the succeeding rows, in order. -/
def okJids (rows : List (String × RowOutcome)) : List String :=
  rows.filterMap (fun r =>
    match r.2 with
    | .ok => some r.1
    | .fail _ _ => none)

/-- Length of the longest run of consecutive failing rows
(`cur` is the current run, `best` the best so far). -/
def consecRuns : List (String × RowOutcome) → Nat → Nat → Nat
  | [], cur, best => max cur best
  | r :: rest, cur, best =>
    if isFailRow r then consecRuns rest (cur + 1) best
    else consecRuns rest 0 (max cur best)

/-- The longest run of consecutive failing rows in a batch. -/
def maxConsecutiveFailures (rows : List (String × RowOutcome)) : Nat :=
  consecRuns rows 0 0

/-- The string truncation helper of `prepareInsertValues`
(databaseService.js lines 450-453): a value longer than the limit is cut to
`maxLength - 3` characters and a three-dot marker is appended; shorter
values (and, in the source, null or non-string values) pass through
unchanged. -/
def truncateString (value : JString) (maxLength : Nat) : JString :=
  if value.length > maxLength then value.take (maxLength - 3) ++ "...".toList
  else value

/-- The maximum lengths passed to `truncateString` by `prepareInsertValues`
(databaseService.js lines 455-494): 200 for category/status/budget/timeline
style fields, 255 for names and agents, 100 for the lead stage, 20 for the
urgency level and 50 for the sentiment. -/
def configuredMaxLengths : List Nat := [200, 255, 100, 20, 50]

/-- Invariant of the conversation cache: no stored entry has an empty or
whitespace-only transcript. -/
def cacheInv (m : CacheMap) : Prop :=
  ∀ k e, m k = some e → (jsTrim e.conversation).isEmpty = false

/-- A conversation record with a non-empty transcript, index `i`. -/
def c1Conv (i : Nat) : ConvResult :=
  { remoteJid := toString i, chatName := none, conversation := ['h', 'i']
    metadata := none, hasMessages := true, fromCache := false, error := none }

/-- Fifty-one analyzable conversations: with batch size 1 they produce 51
batches, so one incremental flush is attempted at batch 50 and the final
flush covers only the last item. -/
def c1Data : List ConvResult := (List.range 51).map c1Conv

/-- The checkpoint run in which every periodic incremental save fails (the
callback throws and the catch in the batch loop swallows it) while the
final save succeeds. -/
def c1Out : BatchState :=
  analyzeConversationsBatch (fun _ => .ok ⟨emptyAnalysisFields, some 1⟩ 1)
    (fun _ => false) true c1Data 1 true

/-- A single analyzable conversation. -/
def c3Data : List ConvResult :=
  [{ remoteJid := "jid1", chatName := none, conversation := "hello".toList
     metadata := none, hasMessages := true, fromCache := false, error := none }]

/-- A service that always rejects with the OpenAI quota-exhaustion error. -/
def c3Svc : String → ServiceOutcome :=
  fun _ => .err "You exceeded your current quota" (some "insufficient_quota") 7

/-- The batch run over `c3Data` under total quota exhaustion. -/
def c3Out : BatchState :=
  analyzeConversationsBatch c3Svc (fun _ => true) true c3Data 5 false

/-- A batch with one row hitting an unrecoverable constraint violation and
one succeeding row. -/
def c2Rows : List (String × RowOutcome) :=
  [("bad@s.whatsapp.net",
    .fail "value too long for type character varying(20)" (some "22001")),
   ("good@s.whatsapp.net", .ok)]

/-- 102 rows alternating failure and success: 51 failures in total but no
two of them adjacent. -/
def altRows : List (String × RowOutcome) :=
  (List.range 102).map (fun i =>
    (toString i, if i % 2 == 0 then RowOutcome.fail "boom" none else RowOutcome.ok))

/-- A conversation record with a non-empty transcript for the cache-write
witness. -/
def c7GoodConv : ConvResult :=
  { remoteJid := "a", chatName := none, conversation := "hi".toList
    metadata := none, hasMessages := true, fromCache := false, error := none }

/-- A message with conversational text. -/
def c5Msg : Msg :=
  { sender_name := none, messageType := "conversation".toList, from_me := false
    text_content := some "hey there".toList, sent_at := some 0, messageTimestamp := 0 }

/-- Three chats: one cache hit, one whose message fetch fails, one fresh. -/
def c5Chats : List ChatRow :=
  [⟨"chatA", some "A".toList⟩, ⟨"chatB", none⟩, ⟨"chatC", none⟩]

/-- A message store whose fetch fails for `chatB` only. -/
def c5Fetch : String → Except String (List Msg) :=
  fun j => if j = "chatB" then .error "db down" else .ok [c5Msg]

/-- A cache holding a transcript for `chatA`. -/
def c5CacheRows : List CacheRow :=
  [⟨"chatA", "cached text".toList, 3, 1, none, none, 0⟩]

/-- One analyzable conversation for the analysis-batch witness. -/
def c5Convs : List ConvResult :=
  [{ remoteJid := "x", chatName := none, conversation := "hello".toList
     metadata := none, hasMessages := true, fromCache := false, error := none }]

/-- A service returning a well-formed unscored response. -/
def c5Svc : String → ServiceOutcome := fun _ => .ok ⟨emptyAnalysisFields, none⟩ 1

/-- A list of whitespace characters trims to the empty string. -/
theorem jsTrim_eq_nil (s : JString) (h : ∀ c ∈ s, isJsWhitespace c = true) :
    jsTrim s = [] := by
  have h1 : s.dropWhile isJsWhitespace = [] := List.dropWhile_eq_nil_iff.mpr h
  simp [jsTrim, h1]

/-- C6.  For every transcript that is empty or consists only of whitespace,
`analyzeSalesConversation` returns the canonical empty result — with the
category `No Product Mentioned` and default-filled fields — immediately,
without issuing any request to the external AI service. -/
theorem analyze_empty_transcript_no_service_call (svc : ServiceOutcome)
    (remoteJid : String) (s : JString)
    (h : ∀ c ∈ s, isJsWhitespace c = true) :
    analyzeSalesConversation svc s remoteJid = (getEmptyAnalysis remoteJid, false)
  ∧ (getEmptyAnalysis remoteJid).fields.product_category = "No Product Mentioned" := by
  refine ⟨?_, rfl⟩
  have ht : jsTrim s = [] := jsTrim_eq_nil s h
  simp [analyzeSalesConversation, ht]

/-- Witness for C6 at the whitespace transcript of a space and a tab. -/
theorem analyze_empty_transcript_no_service_call_witness :
    analyzeSalesConversation (.err "e" none 0) [' ', '\t'] "x" =
      (getEmptyAnalysis "x", false) :=
  (analyze_empty_transcript_no_service_call (.err "e" none 0) "x" [' ', '\t']
    (by decide)).1

/-- C10.  The cache read never propagates a store error: a failing store
query yields the empty mapping, which is exactly what a store returning no
rows yields — a cache failure is indistinguishable from a miss on every
requested identifier. -/
theorem cache_read_error_returns_empty (remoteJids : List String) (e : String) :
    getCachedConversations (.error e) remoteJids = []
  ∧ getCachedConversations (.ok []) remoteJids = [] := by
  constructor <;> (cases h : remoteJids.isEmpty <;> simp [getCachedConversations, h])

/-- C8.  For every configured maximum length `L`, a value longer than `L`
is stored truncated with the three-dot marker as suffix and fits within
`L`; a value of length at most `L` is stored unchanged. -/
theorem truncate_configured_lengths (L : Nat) (s : JString)
    (hL : L ∈ configuredMaxLengths) :
    (L < s.length →
      (truncateString s L).length ≤ L ∧ "...".toList <:+ truncateString s L)
  ∧ (s.length ≤ L → truncateString s L = s) := by
  have h3 : 3 ≤ L := by
    simp [configuredMaxLengths] at hL
    rcases hL with h | h | h | h | h <;> omega
  constructor
  · intro hlen
    have he : truncateString s L = s.take (L - 3) ++ "...".toList := by
      simp [truncateString, hlen]
    constructor
    · rw [he]
      simp [List.length_take]
      omega
    · rw [he]
      exact List.suffix_append _ _
  · intro hlen
    simp [truncateString]
    omega

/-- Witness for C8 at the configured length 20 with a 25-character value
(truncated) and a 1-character value (unchanged). -/
theorem truncate_configured_lengths_witness :
    (truncateString (List.replicate 25 'a') 20).length ≤ 20
  ∧ "...".toList <:+ truncateString (List.replicate 25 'a') 20
  ∧ truncateString ['a'] 20 = ['a'] :=
  ⟨((truncate_configured_lengths 20 (List.replicate 25 'a') (by decide)).1 (by decide)).1,
   ((truncate_configured_lengths 20 (List.replicate 25 'a') (by decide)).1 (by decide)).2,
   (truncate_configured_lengths 20 ['a'] (by decide)).2 (by decide)⟩

/-- Counterexample to C4.  An `analysis_confidence` omitted from a
successful, real service response defaults to 0.8, not to the claimed 0.5;
and no clamping to the unit interval happens: a service confidence of 1.5
is produced unchanged, so not every produced confidence lies in [0,1]. -/
theorem confidence_defaults_counterexample :
    (analyzeSalesConversation (.ok ⟨emptyAnalysisFields, none⟩ 12) ['h', 'i'] "jid").1.analysisConfidence = (0.8 : ℚ)
  ∧ ¬ (analyzeSalesConversation (.ok ⟨emptyAnalysisFields, none⟩ 12) ['h', 'i'] "jid").1.analysisConfidence = (0.5 : ℚ)
  ∧ (analyzeSalesConversation (.ok ⟨emptyAnalysisFields, some (1.5 : ℚ)⟩ 12) ['h', 'i'] "jid").1.analysisConfidence > 1 := by
  have ht : jsTrim ['h', 'i'] = ['h', 'i'] := by decide
  refine ⟨?_, ?_, ?_⟩ <;> simp [analyzeSalesConversation, ht, jsOrQ] <;> norm_num

/-- C4 as amended.  No clamping is performed: for a non-empty transcript the
produced confidence equals the service's nonzero reported value (hence lies
in [0,1] exactly when that value does), and the omitted-confidence defaults
are tiered 0.8 for a successful but unscored real response, 0.3 for the
empty-transcript heuristic result, and 0.1 for the error fallback. -/
theorem confidence_defaults_amended (jid : String) (s : JString)
    (f : AnalysisFields) (q : ℚ) (m : String) (c : Option String) (t : Nat)
    (hs : (s.isEmpty || (jsTrim s).isEmpty) = false) (h0 : 0 ≤ q) (h1 : q ≤ 1) :
    (analyzeSalesConversation (.ok ⟨f, none⟩ t) s jid).1.analysisConfidence = (0.8 : ℚ)
  ∧ (q ≠ 0 →
      (analyzeSalesConversation (.ok ⟨f, some q⟩ t) s jid).1.analysisConfidence = q)
  ∧ (analyzeSalesConversation (.err m c t) s jid).1.analysisConfidence = (0.1 : ℚ)
  ∧ (getEmptyAnalysis jid).analysisConfidence = (0.3 : ℚ)
  ∧ 0 ≤ (analyzeSalesConversation (.ok ⟨f, some q⟩ t) s jid).1.analysisConfidence
  ∧ (analyzeSalesConversation (.ok ⟨f, some q⟩ t) s jid).1.analysisConfidence ≤ 1 := by
  have e1 : (analyzeSalesConversation (.ok ⟨f, some q⟩ t) s jid).1.analysisConfidence
      = jsOrQ (some q) (0.8 : ℚ) := by
    simp [analyzeSalesConversation, hs]
  refine ⟨by simp [analyzeSalesConversation, hs, jsOrQ], ?_, by simp [analyzeSalesConversation, hs], rfl, ?_, ?_⟩
  · intro hq
    rw [e1]
    simp [jsOrQ, hq]
  · rw [e1]
    simp only [jsOrQ]
    split
    · norm_num
    · exact h0
  · rw [e1]
    simp only [jsOrQ]
    split
    · norm_num
    · exact h1

/-- Witness for C4 as amended, at a one-character transcript. -/
theorem confidence_defaults_amended_witness :
    (analyzeSalesConversation (.ok ⟨emptyAnalysisFields, none⟩ 3) ['h'] "j").1.analysisConfidence = (0.8 : ℚ)
  ∧ (analyzeSalesConversation (.ok ⟨emptyAnalysisFields, some (0.5 : ℚ)⟩ 3) ['h'] "j").1.analysisConfidence = (0.5 : ℚ)
  ∧ (analyzeSalesConversation (.err "boom" none 3) ['h'] "j").1.analysisConfidence = (0.1 : ℚ) :=
  ⟨(confidence_defaults_amended "j" ['h'] emptyAnalysisFields (0.5 : ℚ) "boom" none 3
      (by decide) (by norm_num) (by norm_num)).1,
   (confidence_defaults_amended "j" ['h'] emptyAnalysisFields (0.5 : ℚ) "boom" none 3
      (by decide) (by norm_num) (by norm_num)).2.1 (by norm_num),
   (confidence_defaults_amended "j" ['h'] emptyAnalysisFields (0.5 : ℚ) "boom" none 3
      (by decide) (by norm_num) (by norm_num)).2.2.1⟩

/-- Rejoining the chunks gives back the original list, for any fuel at
least the list length. -/
theorem chunksAux_flatten {α : Type} :
    ∀ (fuel n : Nat) (xs : List α), xs.length ≤ fuel →
      (chunksAux fuel n xs).flatten = xs := by
  intro fuel
  induction fuel with
  | zero =>
    intro n xs h
    have : xs = [] := List.eq_nil_of_length_eq_zero (Nat.le_zero.mp h)
    subst this
    rfl
  | succ fuel ih =>
    intro n xs h
    cases xs with
    | nil => rfl
    | cons x rest =>
      have hlen : (rest.drop (n - 1)).length ≤ fuel := by
        simp only [List.length_drop]
        simp only [List.length_cons] at h
        omega
      simp only [chunksAux, List.flatten, ih n (rest.drop (n - 1)) hlen]
      simp [List.take_append_drop]

/-- Chunking then rejoining is the identity. -/
theorem chunks_flatten {α : Type} (n : Nat) (xs : List α) :
    (chunks n xs).flatten = xs :=
  chunksAux_flatten xs.length n xs le_rfl

/-- The append-accumulating fold over chunks of mapped batches is the
flattened map. -/
theorem foldl_append_map {α β : Type} (f : α → β) :
    ∀ (L : List (List α)) (acc : List β),
      L.foldl (fun a b => a ++ b.map f) acc = acc ++ (L.map (List.map f)).flatten := by
  intro L
  induction L with
  | nil => intro acc; simp
  | cons b L ih =>
    intro acc
    simp [List.foldl_cons, ih, List.append_assoc]

/-- Chunked mapping is plain mapping: the chunk loop applies the per-item
function to every item exactly once, in order. -/
theorem chunks_foldl_map {α β : Type} (f : α → β) (n : Nat) (xs : List α) :
    (chunks n xs).foldl (fun a b => a ++ b.map f) [] = xs.map f := by
  rw [foldl_append_map, ← List.map_flatten, chunks_flatten]
  simp

/-- The `results` field of one batch iteration: the chunk's results are
appended whatever the save branch does. -/
theorem stepBatch_results (svc : String → ServiceOutcome) (hc : Bool)
    (flushOk : Nat → Bool) (s : BatchState) (batch : List ConvResult) :
    (stepBatch svc hc flushOk s batch).results
      = s.results ++ batch.map (processConvItem svc) := rfl

/-- The fold of the chunk loop accumulates exactly one result per item. -/
theorem foldl_stepBatch_results (svc : String → ServiceOutcome) (hc : Bool)
    (flushOk : Nat → Bool) :
    ∀ (L : List (List ConvResult)) (s : BatchState),
      (L.foldl (stepBatch svc hc flushOk) s).results
        = s.results ++ (L.map (List.map (processConvItem svc))).flatten := by
  intro L
  induction L with
  | nil => intro s; simp
  | cons b L ih =>
    intro s
    simp [List.foldl_cons, ih, stepBatch_results, List.append_assoc]

/-- The results of the whole analysis batch are the per-item results in
input order; neither flush branch touches them. -/
theorem analyzeConversationsBatch_results (svc : String → ServiceOutcome)
    (flushOk : Nat → Bool) (ffo : Bool) (convs : List ConvResult)
    (W : Nat) (hc : Bool) :
    (analyzeConversationsBatch svc flushOk ffo convs W hc).results
      = convs.map (processConvItem svc) := by
  have h := foldl_stepBatch_results svc hc flushOk (chunks W convs)
    { results := [], accumulatedForSave := [], batchNumber := 0, persisted := [] }
  simp only [analyzeConversationsBatch]
  split <;> simp [h, ← List.map_flatten, chunks_flatten]

/-- The split into cache hits and misses preserves the number of chats. -/
theorem splitCached_length (cm : List (String × CachedConv)) :
    ∀ chats : List ChatRow,
      (splitCached cm chats).1.length + (splitCached cm chats).2.length
        = chats.length := by
  intro chats
  induction chats with
  | nil => rfl
  | cons chat rest ih =>
    simp only [splitCached]
    cases h : cacheGet cm chat.chat_id <;> simp [h] <;> omega

/-- C5.  For every chunk size `W > 0`, both batch loops produce exactly one
output per input item: the chat loop yields one conversation record per
chat, the analysis loop yields exactly the per-item results in order (so
each item's output is a function of that item alone, and one item's failure
cannot change another item's result), and a failing item yields a captured
error record instead of aborting its chunk. -/
theorem batch_one_output_per_item
    (fetch : String → Except String (List Msg))
    (cacheOutcome : Except String (List CacheRow)) (chats : List ChatRow)
    (svc : String → ServiceOutcome) (flushOk : Nat → Bool) (ffo : Bool)
    (hc : Bool) (convs : List ConvResult) (W : Nat) (hW : 0 < W) :
    (processChatsBatch fetch cacheOutcome chats W).results.length = chats.length
  ∧ (analyzeConversationsBatch svc flushOk ffo convs W hc).results
      = convs.map (processConvItem svc)
  ∧ (∀ chat m, fetch chat.chat_id = .error m →
      processChatItem fetch chat =
        { remoteJid := chat.chat_id, chatName := none, conversation := []
          metadata := none, hasMessages := false, fromCache := false
          error := some m }) := by
  refine ⟨?_, analyzeConversationsBatch_results svc flushOk ffo convs W hc, ?_⟩
  · rcases hsp : splitCached
      (getCachedConversations cacheOutcome (chats.map (·.chat_id))) chats
      with ⟨cachedResults, chatsToProcess⟩
    have hlen := splitCached_length
      (getCachedConversations cacheOutcome (chats.map (·.chat_id))) chats
    rw [hsp] at hlen
    simp only [processChatsBatch, hsp]
    rw [chunks_foldl_map]
    simp only [List.length_append, List.length_map]
    simpa using hlen
  · intro chat m h
    simp [processChatItem, h]

/-- Witness for C5: three chats (a cache hit, a failing fetch, a fresh one)
with chunk size 2, and a one-item analysis batch. -/
theorem batch_one_output_per_item_witness :
    (processChatsBatch c5Fetch (.ok c5CacheRows) c5Chats 2).results.length = 3
  ∧ (analyzeConversationsBatch c5Svc (fun _ => true) true c5Convs 2 false).results
      = c5Convs.map (processConvItem c5Svc)
  ∧ processChatItem c5Fetch ⟨"chatB", none⟩ =
      { remoteJid := "chatB", chatName := none, conversation := []
        metadata := none, hasMessages := false, fromCache := false
        error := some "db down" } :=
  ⟨(batch_one_output_per_item c5Fetch (.ok c5CacheRows) c5Chats c5Svc
      (fun _ => true) true false c5Convs 2 (by decide)).1,
   (batch_one_output_per_item c5Fetch (.ok c5CacheRows) c5Chats c5Svc
      (fun _ => true) true false c5Convs 2 (by decide)).2.1,
   (batch_one_output_per_item c5Fetch (.ok c5CacheRows) c5Chats c5Svc
      (fun _ => true) true false c5Convs 2 (by decide)).2.2 ⟨"chatB", none⟩
      "db down" (by rfl)⟩

/-- C1 failing run.  Fifty-one successfully analyzed conversations with
batch size 1: the incremental flush attempted at batch 50 fails (the save
callback throws; the catch in aiAnalyzer.js lines 240-242 swallows it), yet
line 245 clears the accumulator unconditionally.  The 50 results
accumulated up to that point are dropped: the final flush persists only the
one remaining result, while the run still reports all 51 as successful. -/
theorem checkpoint_cleared_after_failed_flush :
    (c1Out.results.filter isSuccessResult).length = 51
  ∧ c1Out.persisted.flatten.length = 1
  ∧ c1Out.persisted.flatten.map (fun r => r.res.remoteJid) = ["50"] := by
  decide

/-- C3 failing run.  One analyzable conversation under quota exhaustion:
`analyzeSalesConversation` swallows the quota error and returns its
fallback, so the batch loop marks the item `analysisSuccess: true` with no
`errorCode`, and the run's quota-failure counter — which counts results
with `errorCode = insufficient_quota` — reports 0 although exactly one item
failed with the quota error (whose message survives only in the fallback's
`error` field). -/
theorem quota_failures_not_counted :
    quotaFailureCount c3Out.results = 0
  ∧ c3Out.results.length = 1
  ∧ c3Out.results.map (fun r => r.res.error) = [some "You exceeded your current quota"]
  ∧ c3Out.results.map (fun r => r.analysisSuccess) = [some true] := by
  decide

/-- Lookup after the cache-write fold: the entry of a key is determined by
the last guarded write for that key, and is otherwise unchanged. -/
theorem saveFold_lookup (cs : List ConvResult) :
    ∀ (m : CacheMap) (k : String),
      (cs.foldl
        (fun acc conv =>
          if goodConv conv then cacheUpsert acc conv.remoteJid (entryOfConv conv)
          else acc) m) k
      = match lastGoodConv cs k with
        | some conv => some (entryOfConv conv)
        | none => m k := by
  induction cs with
  | nil => intro m k; rfl
  | cons conv rest ih =>
    intro m k
    simp only [List.foldl_cons, lastGoodConv]
    rw [ih]
    cases h : lastGoodConv rest k with
    | some d => rfl
    | none =>
      by_cases hg : goodConv conv = true
      · by_cases hk : conv.remoteJid = k
        · simp [hg, hk, cacheUpsert]
        · have : ¬ (k = conv.remoteJid) := fun he => hk he.symm
          simp [hg, hk, cacheUpsert, this]
      · simp [hg]

/-- A conversation selected by `lastGoodConv` passes the cache-write
guard. -/
theorem lastGoodConv_good :
    ∀ (cs : List ConvResult) (k : String) (c : ConvResult),
      lastGoodConv cs k = some c → goodConv c = true := by
  intro cs
  induction cs with
  | nil => intro k c h; exact absurd h (by simp [lastGoodConv])
  | cons conv rest ih =>
    intro k c h
    simp only [lastGoodConv] at h
    cases hr : lastGoodConv rest k with
    | some d =>
      rw [hr] at h
      simp only [Option.some_inj] at h
      subst h
      exact ih k _ hr
    | none =>
      rw [hr] at h
      by_cases hg : (goodConv conv && conv.remoteJid == k) = true
      · rw [if_pos hg] at h
        cases h
        simp only [Bool.and_eq_true] at hg
        exact hg.1
      · rw [if_neg hg] at h
        exact absurd h (by simp)

/-- C7.  The cache write is an idempotent upsert keyed by conversation
identifier — re-running the same batch of writes leaves every key's stored
entry unchanged — and it preserves the invariant that no stored entry has
an empty or whitespace-only transcript, because entries failing the
transcript guard are dropped rather than written (and a rolled-back
transaction leaves the table untouched). -/
theorem cache_upsert_idempotent_no_empty_entries (m : CacheMap)
    (cs : List ConvResult) :
    (∀ k, saveConversationsToCache true (saveConversationsToCache true m cs) cs k
        = saveConversationsToCache true m cs k)
  ∧ (∀ txOk, cacheInv m → cacheInv (saveConversationsToCache txOk m cs)) := by
  by_cases hcs : cs.isEmpty
  · constructor
    · intro k
      simp [saveConversationsToCache, hcs]
    · intro txOk hm
      simpa [saveConversationsToCache, hcs] using hm
  · have hsave : ∀ m2 : CacheMap, saveConversationsToCache true m2 cs
        = cs.foldl
            (fun acc conv =>
              if goodConv conv then cacheUpsert acc conv.remoteJid (entryOfConv conv)
              else acc) m2 := by
      intro m2
      simp [saveConversationsToCache, hcs]
    constructor
    · intro k
      rw [hsave, hsave, saveFold_lookup, saveFold_lookup]
      cases h : lastGoodConv cs k <;> rfl
    · intro txOk hm
      cases txOk with
      | false =>
        intro k e he
        have : saveConversationsToCache false m cs = m := by
          simp [saveConversationsToCache, hcs]
        rw [this] at he
        exact hm k e he
      | true =>
        intro k e he
        rw [hsave, saveFold_lookup] at he
        cases h : lastGoodConv cs k with
        | some c =>
          rw [h] at he
          have hg := lastGoodConv_good cs k c h
          have hgood : (jsTrim c.conversation).isEmpty = false := by
            simp only [goodConv, Bool.and_eq_true] at hg
            simpa using hg.2
          cases he
          simpa [entryOfConv] using hgood
        | none =>
          rw [h] at he
          exact hm k e he

/-- Witness for C7: one good conversation written twice into the empty
cache. -/
theorem cache_upsert_idempotent_no_empty_entries_witness :
    saveConversationsToCache true (saveConversationsToCache true cacheEmpty [c7GoodConv]) [c7GoodConv] "a"
      = saveConversationsToCache true cacheEmpty [c7GoodConv] "a"
  ∧ cacheInv (saveConversationsToCache true cacheEmpty [c7GoodConv]) :=
  ⟨(cache_upsert_idempotent_no_empty_entries cacheEmpty [c7GoodConv]).1 "a",
   (cache_upsert_idempotent_no_empty_entries cacheEmpty [c7GoodConv]).2 true
     (fun k e h => by simp [cacheEmpty] at h)⟩

/-- When at most 50 errors occur in total, the row loop reaches the end of
the batch and commits, reporting exact success and failure counts, the
per-row errors, and persisting exactly the succeeding rows. -/
theorem bulkLoop_commit (total : Nat) :
    ∀ (rows : List (String × RowOutcome)) (sc ec : Nat)
      (errs : List (Option String × String)) (done : List String),
      ec + failCount rows ≤ 50 →
      bulkLoop total rows sc ec errs done =
        { success := sc + okCount rows, failed := ec + failCount rows
          errors := errs ++ failErrs rows, committed := true
          persisted := done ++ okJids rows } := by
  intro rows
  induction rows with
  | nil =>
    intro sc ec errs done h
    simp [bulkLoop, failCount, okCount, failErrs, okJids]
  | cons r rest ih =>
    obtain ⟨jid, out⟩ := r
    cases out with
    | ok =>
      intro sc ec errs done h
      have hfc : failCount ((jid, RowOutcome.ok) :: rest) = failCount rest := by
        simp [failCount, isFailRow, List.filter_cons]
      rw [hfc] at h
      simp only [bulkLoop]
      rw [ih (sc + 1) ec errs (done ++ [jid]) h]
      simp [okCount, failCount, failErrs, okJids, isFailRow, List.filter_cons,
        List.filterMap_cons, List.append_assoc, BulkResult.mk.injEq]
      omega
    | fail msg code =>
      intro sc ec errs done h
      have hfc : failCount ((jid, RowOutcome.fail msg code) :: rest)
          = failCount rest + 1 := by
        simp [failCount, isFailRow, List.filter_cons]
      rw [hfc] at h
      have hab : ¬ (ec + 1 > 50) := by omega
      simp only [bulkLoop, if_neg hab]
      rw [ih sc (ec + 1) (errs ++ [(some jid, msg)]) done (by omega)]
      simp [okCount, failCount, failErrs, okJids, isFailRow, List.filter_cons,
        List.filterMap_cons, List.append_assoc, BulkResult.mk.injEq]
      omega

/-- Once more than 50 errors occur in total, the row loop throws, the
transaction is rolled back, and the call reports zero successes with the
whole batch failed. -/
theorem bulkLoop_abort (total : Nat) :
    ∀ (rows : List (String × RowOutcome)) (sc ec : Nat)
      (errs : List (Option String × String)) (done : List String),
      ec ≤ 50 → 50 < ec + failCount rows →
      bulkLoop total rows sc ec errs done =
        { success := 0, failed := total
          errors := [(none, "Too many insertion errors")]
          committed := false, persisted := [] } := by
  intro rows
  induction rows with
  | nil =>
    intro sc ec errs done h1 h2
    simp [failCount] at h2
    omega
  | cons r rest ih =>
    obtain ⟨jid, out⟩ := r
    cases out with
    | ok =>
      intro sc ec errs done h1 h2
      have hfc : failCount ((jid, RowOutcome.ok) :: rest) = failCount rest := by
        simp [failCount, isFailRow, List.filter_cons]
      rw [hfc] at h2
      simp only [bulkLoop]
      exact ih (sc + 1) ec errs (done ++ [jid]) h1 h2
    | fail msg code =>
      intro sc ec errs done h1 h2
      have hfc : failCount ((jid, RowOutcome.fail msg code) :: rest)
          = failCount rest + 1 := by
        simp [failCount, isFailRow, List.filter_cons]
      rw [hfc] at h2
      by_cases hab : ec + 1 > 50
      · simp only [bulkLoop, if_pos hab]
      · simp only [bulkLoop, if_neg hab]
        exact ih sc (ec + 1) (errs ++ [(some jid, msg)]) done (by omega) (by omega)

/-- Counterexample to C2.  A batch with one row hitting an unrecoverable
constraint violation and one succeeding row: the call is not atomic — the
transaction commits with one row persisted and one failed — and no rollback
or single-row retry pass occurs. -/
theorem bulk_insert_partial_commit_counterexample :
    (bulkInsertAnalysisResults c2Rows).success = 1
  ∧ (bulkInsertAnalysisResults c2Rows).failed = 1
  ∧ (bulkInsertAnalysisResults c2Rows).committed = true
  ∧ (bulkInsertAnalysisResults c2Rows).persisted = ["good@s.whatsapp.net"]
  ∧ ¬ ((bulkInsertAnalysisResults c2Rows).failed = 0
       ∨ (bulkInsertAnalysisResults c2Rows).committed = false) := by
  decide

/-- C2 as amended.  Each call runs the row inserts inside a single
transaction, but a row's constraint violation does not roll it back: the
error is recorded per row and the loop continues, and (whenever at most 50
rows fail) the transaction commits with the successful rows reported as
succeeded and exactly the failing rows in the per-item errors — there is no
single-row retry pass.  Only when more than 50 rows fail does the whole
transaction roll back, reporting zero successes and the entire batch as
failed. -/
theorem bulk_insert_amended_behavior (rows : List (String × RowOutcome)) :
    (failCount rows ≤ 50 →
      bulkInsertAnalysisResults rows =
        { success := okCount rows, failed := failCount rows
          errors := failErrs rows, committed := true, persisted := okJids rows })
  ∧ (50 < failCount rows →
      bulkInsertAnalysisResults rows =
        { success := 0, failed := rows.length
          errors := [(none, "Too many insertion errors")]
          committed := false, persisted := [] }) := by
  constructor
  · intro h
    by_cases hr : rows.isEmpty
    · have : rows = [] := List.isEmpty_iff.mp hr
      subst this
      simp [bulkInsertAnalysisResults, okCount, failCount, failErrs, okJids]
    · simp only [bulkInsertAnalysisResults, hr, Bool.false_eq_true, if_false]
      simpa using bulkLoop_commit rows.length rows 0 0 [] [] (by omega)
  · intro h
    have hr : rows.isEmpty = false := by
      cases rows with
      | nil => simp [failCount] at h
      | cons a l => rfl
    simp only [bulkInsertAnalysisResults, hr, Bool.false_eq_true, if_false]
    exact bulkLoop_abort rows.length rows 0 0 [] [] (by omega) (by omega)

/-- Witness for C2 as amended, on the two-row batch. -/
theorem bulk_insert_amended_behavior_witness :
    bulkInsertAnalysisResults c2Rows =
      { success := okCount c2Rows, failed := failCount c2Rows
        errors := failErrs c2Rows, committed := true
        persisted := okJids c2Rows } :=
  (bulk_insert_amended_behavior c2Rows).1 (by decide)

set_option maxRecDepth 4000 in
/-- Counterexample to C9.  102 rows alternating failure and success: no two
errors are ever consecutive (the longest run of consecutive failures is 1),
yet the call aborts early with a rollback, because the cap is applied to
the running total of errors, which reaches 51. -/
theorem consecutive_error_cap_counterexample :
    maxConsecutiveFailures altRows = 1
  ∧ (bulkInsertAnalysisResults altRows).committed = false
  ∧ (bulkInsertAnalysisResults altRows).success = 0
  ∧ (bulkInsertAnalysisResults altRows).failed = 102 := by
  decide

/-- C9 as amended.  The hard cap is on the total number of per-item errors
within one call, regardless of adjacency: the call aborts early (rolling
back, reporting zero successes and the whole batch failed) exactly when
more than 50 rows fail, and commits otherwise. -/
theorem error_cap_total_amended (rows : List (String × RowOutcome)) :
    (50 < failCount rows →
      (bulkInsertAnalysisResults rows).committed = false
      ∧ (bulkInsertAnalysisResults rows).success = 0
      ∧ (bulkInsertAnalysisResults rows).failed = rows.length)
  ∧ (failCount rows ≤ 50 → (bulkInsertAnalysisResults rows).committed = true) := by
  constructor
  · intro h
    have hr : rows.isEmpty = false := by
      cases rows with
      | nil => simp [failCount] at h
      | cons a l => rfl
    have he := bulkLoop_abort rows.length rows 0 0 [] [] (by omega) (by omega)
    simp [bulkInsertAnalysisResults, hr, he]
  · intro h
    by_cases hr : rows.isEmpty
    · have : rows = [] := List.isEmpty_iff.mp hr
      subst this
      rfl
    · have he := bulkLoop_commit rows.length rows 0 0 [] [] (by omega)
      simp only [bulkInsertAnalysisResults, hr, Bool.false_eq_true, if_false, he]

/-- Witness for C9 as amended: the alternating batch aborts, a one-row
batch commits. -/
theorem error_cap_total_amended_witness :
    (bulkInsertAnalysisResults altRows).committed = false
  ∧ (bulkInsertAnalysisResults altRows).success = 0
  ∧ (bulkInsertAnalysisResults altRows).failed = altRows.length
  ∧ (bulkInsertAnalysisResults [("a", RowOutcome.ok)]).committed = true :=
  ⟨((error_cap_total_amended altRows).1 (by decide)).1,
   ((error_cap_total_amended altRows).1 (by decide)).2.1,
   ((error_cap_total_amended altRows).1 (by decide)).2.2,
   (error_cap_total_amended [("a", RowOutcome.ok)]).2 (by decide)⟩
